import Mathlib

/-!
Verification development for the pca3dvis repository.

The Python modules are shallowly embedded: numpy arrays become records
carrying a dtype tag, explicit dimensions and exact rational entries;
functions that can raise become `Except`-valued functions; external
collaborators (scipy's eigendecomposition and SVD, the hdbscan clustering
engine) are passed in as explicit arguments, exactly where the source reads
their results.
-/

/-- Numpy dtype tags that appear in the validation checks of the repository. -/
inductive DType
  | float32
  | float64
  | int32
  | int64
  deriving DecidableEq

/-- Model of a 2-d numpy array: a dtype tag, explicit dimensions, and the
entries as exact rationals (list of rows). The dimensions are carried
explicitly so that empty arrays such as `np.zeros((0, d))` keep their column
count, as they do in numpy. -/
structure NPMat where
  dtype : DType
  nrows : Nat
  ncols : Nat
  data : List (List ℚ)
  deriving DecidableEq

/-- Model of a numpy array of arbitrary rank, used for the label arrays
(`snapshot.py` allows labels of any shape and any dtype; only the shape and
the dtype tag are ever inspected by the code under verification). -/
structure NPArr where
  dtype : DType
  shape : List Nat
  data : List ℚ
  deriving DecidableEq

/-- Model of a 1-d integer numpy array (cluster label vectors). Its length is
the length of `data`. -/
structure NPIntVec where
  dtype : DType
  data : List Int
  deriving DecidableEq

/-- pca3dvis.snapshot.ProjectedSnapshot: `projection_vectors`,
`projected_samples` and `projected_sample_labels`, as stored after the
constructor validation succeeded. -/
structure ProjectedSnapshot where
  projection_vectors : NPMat
  projected_samples : NPMat
  projected_sample_labels : NPArr
  deriving DecidableEq

/-- Validation performed by `ProjectedSnapshot.__init__` (snapshot.py lines
30-52): `projection_vectors` must be a float32/float64 2-d array,
`projected_samples` must share its dtype and its column count
(`proj_size`), and the label array's first dimension must equal the sample
count (`projected_sample_labels.shape[0]`, an IndexError on a 0-d array).
Returns the constructed snapshot, or the name of the first failing check. -/
def ProjectedSnapshot.mk_checked (projection_vectors projected_samples : NPMat)
    (projected_sample_labels : NPArr) : Except String ProjectedSnapshot :=
  if ¬(projection_vectors.dtype = DType.float32 ∨
      projection_vectors.dtype = DType.float64) then
    .error "projection_vectors: dtype"
  else if projected_samples.ncols ≠ projection_vectors.ncols then
    .error "projected_samples: proj_size"
  else if projected_samples.dtype ≠ projection_vectors.dtype then
    .error "projected_samples: dtype"
  else
    match projected_sample_labels.shape with
    | [] => .error "projected_sample_labels: shape[0] IndexError"
    | s0 :: _ =>
      if s0 ≠ projected_samples.nrows then
        .error "projected_sample_labels: shape"
      else
        .ok ⟨projection_vectors, projected_samples, projected_sample_labels⟩

/-- Property `ProjectedSnapshot.dtype` (snapshot.py line 58). -/
def ProjectedSnapshot.dtype (s : ProjectedSnapshot) : DType :=
  s.projection_vectors.dtype

/-- Property `ProjectedSnapshot.original_size` (snapshot.py line 63). -/
def ProjectedSnapshot.original_size (s : ProjectedSnapshot) : Nat :=
  s.projection_vectors.nrows

/-- Property `ProjectedSnapshot.projection_size` (snapshot.py line 68). -/
def ProjectedSnapshot.projection_size (s : ProjectedSnapshot) : Nat :=
  s.projection_vectors.ncols

/-- Property `ProjectedSnapshot.num_samples` (snapshot.py line 73). -/
def ProjectedSnapshot.num_samples (s : ProjectedSnapshot) : Nat :=
  s.projected_samples.nrows

/-- Model of the `.npz` archive written by `ProjectedSnapshot.save`
(snapshot.py lines 83-87): three named arrays, stored losslessly
(`np.savez_compressed` writes each array bit-exactly). -/
structure SnapshotArchive where
  projection_vectors : NPMat
  projected_samples : NPMat
  projected_sample_labels : NPArr
  deriving DecidableEq

/-- `ProjectedSnapshot.save` (snapshot.py lines 75-87). -/
def ProjectedSnapshot.save (s : ProjectedSnapshot) : SnapshotArchive :=
  ⟨s.projection_vectors, s.projected_samples, s.projected_sample_labels⟩

/-- `ProjectedSnapshot.load` (snapshot.py lines 89-101): reads the three
named arrays back and runs them through the constructor validation. -/
def ProjectedSnapshot.load (a : SnapshotArchive) : Except String ProjectedSnapshot :=
  ProjectedSnapshot.mk_checked a.projection_vectors a.projected_samples
    a.projected_sample_labels

/-- Errors raised by `ProjectedTrajectory.__init__`: the empty-list rejection
from `tus.check_listlike` and the five field comparisons, which name the
offending snapshot index and the offending field. -/
inductive TrajError
  | empty_list
  | mismatch (index : Nat) (field : String)
  deriving DecidableEq

/-- One iteration of the validation loop of `ProjectedTrajectory.__init__`
(trajectory.py lines 33-61): compares a snapshot against snapshot 0, in the
source's order of checks, returning the first offending field if any. -/
def check_snap (s0 s : ProjectedSnapshot) : Option String :=
  if s.num_samples ≠ s0.num_samples then some "num_samples"
  else if s.projection_size ≠ s0.projection_size then some "projection_size"
  else if s.dtype ≠ s0.dtype then some "dtype"
  else if s.projected_sample_labels.shape ≠ s0.projected_sample_labels.shape then
    some "projected_sample_labels.shape"
  else if s.projected_sample_labels.dtype ≠ s0.projected_sample_labels.dtype then
    some "projected_sample_labels.dtype"
  else none

/-- Walks the snapshots in order (starting at index `i`) and returns the
first offending (index, field) pair, mirroring the enumerate loop of
trajectory.py lines 33-61. -/
def first_mismatch (s0 : ProjectedSnapshot) :
    Nat → List ProjectedSnapshot → Option (Nat × String)
  | _, [] => none
  | i, s :: rest =>
    match check_snap s0 s with
    | some f => some (i, f)
    | none => first_mismatch s0 (i + 1) rest

/-- pca3dvis.trajectory.ProjectedTrajectory after successful construction. -/
structure ProjectedTrajectory where
  snapshots : List ProjectedSnapshot
  deriving DecidableEq

/-- `ProjectedTrajectory.__init__` (trajectory.py lines 18-63): rejects an
empty list, then validates every snapshot against snapshot 0 and fails on
the first offending snapshot index and field; on success stores the list. -/
def ProjectedTrajectory.mk_checked (snapshots : List ProjectedSnapshot) :
    Except TrajError ProjectedTrajectory :=
  match snapshots with
  | [] => .error .empty_list
  | s0 :: _ =>
    match first_mismatch s0 0 snapshots with
    | some (i, f) => .error (.mismatch i f)
    | none => .ok ⟨snapshots⟩

/-- The hyperparameter dict `args` handed to `hdbscan.HDBSCAN` in
`find_clusters` (clusters.py lines 84-87). The source computes
`min_cluster_size = int(0.2 * samples.shape[0])`; `int` truncates the IEEE
double product toward zero, which coincides with the integer division
`n / 5` for every realizable sample count (the double 0.2 exceeds 1/5 by
about 1.1e-17, so the product never falls below n/5 and never reaches the
next integer). -/
structure HdbscanArgs where
  min_cluster_size : Nat
  min_samples : Nat
  deriving DecidableEq

/-- Computation of `args` in clusters.py lines 84-87. -/
def find_clusters_args (n : Nat) : HdbscanArgs :=
  ⟨n / 5, 10⟩

/-- The `calculate_params` dict stored on a Clusters value (clusters.py
lines 89-91 and 122): the clustering hyperparameters plus the method name. -/
structure CalculateParams where
  clustering : HdbscanArgs
  method : String
  deriving DecidableEq

/-- pca3dvis.clusters.Clusters after successful construction. -/
structure Clusters where
  samples : NPMat
  centers : NPMat
  labels : NPIntVec
  calculate_params : CalculateParams
  deriving DecidableEq

/-- Property `Clusters.num_samples` (clusters.py line 69). -/
def Clusters.num_samples (c : Clusters) : Nat := c.samples.nrows

/-- Property `Clusters.num_features` (clusters.py line 74). -/
def Clusters.num_features (c : Clusters) : Nat := c.samples.ncols

/-- Property `Clusters.num_clusters` (clusters.py line 79). -/
def Clusters.num_clusters (c : Clusters) : Nat := c.centers.nrows

/-- Validation performed by `Clusters.__init__` (clusters.py lines 41-64):
samples must be a float32/float64 2-d array; centers must be 2-d with the
samples' column count and the samples' dtype; labels must be a 1-d
int32/int64 array with one entry per sample. Returns the constructed value
or the name of the first failing check. -/
def Clusters.mk_checked (samples centers : NPMat) (labels : NPIntVec)
    (calculate_params : CalculateParams) : Except String Clusters :=
  if ¬(samples.dtype = DType.float32 ∨ samples.dtype = DType.float64) then
    .error "samples: dtype"
  else if centers.ncols ≠ samples.ncols then
    .error "centers: n_features"
  else if centers.dtype ≠ samples.dtype then
    .error "centers: dtype"
  else if labels.data.length ≠ samples.nrows then
    .error "labels: n_samples"
  else if ¬(labels.dtype = DType.int32 ∨ labels.dtype = DType.int64) then
    .error "labels: dtype"
  else
    .ok ⟨samples, centers, labels, calculate_params⟩

/-- The distinct non-noise labels (clusters.py lines 99-102): `np.unique`
of the raw hdbscan labels with `-1` dropped, in ascending order. -/
def unique_nonnoise (raw : List Int) : List Int :=
  List.insertionSort (fun a b => a ≤ b) ((raw.filter (fun l => l ≠ -1)).dedup)

/-- `samples[mask]` where `mask = labels == lbl` (clusters.py lines 111-113):
the sample rows whose raw hdbscan label equals `lbl`. -/
def masked_rows (raw : List Int) (rows : List (List ℚ)) (lbl : Int) :
    List (List ℚ) :=
  (rows.zip raw).filterMap (fun p => if p.2 = lbl then some p.1 else none)

/-- `masked.sum(axis=0)` for a row selection (clusters.py line 114): the
column-wise sum, starting from the zero row of width `ncols`. -/
def col_sum (ncols : Nat) (rows : List (List ℚ)) : List ℚ :=
  rows.foldl (fun acc row => List.zipWith (· + ·) acc row)
    (List.replicate ncols 0)

/-- The masked assignment loop `new_labels[mask] = lbl` (clusters.py lines
107-112): starts from `np.zeros(n, 'int32')` and, for each unique label in
order, overwrites the positions whose raw hdbscan label equals it. Noise
positions (raw label -1) are never overwritten and keep the zero fill. -/
def new_labels_fold (raw : List Int) (n : Nat) (uniq : List Int) : List Int :=
  uniq.foldl
    (fun acc lbl => List.zipWith (fun r a => if r = lbl then lbl else a) raw acc)
    (List.replicate n 0)

/-- The cluster centers (clusters.py lines 126-132): each cluster's column
sums divided by its member count, cast back to the samples' dtype (the cast
only changes the dtype tag in this exact-arithmetic model). -/
def centers_data (raw : List Int) (rows : List (List ℚ)) (ncols : Nat)
    (uniq : List Int) : List (List ℚ) :=
  uniq.map (fun lbl =>
    (col_sum ncols (masked_rows raw rows lbl)).map
      (fun x => x / ((masked_rows raw rows lbl).length : ℚ)))

/-- `find_clusters` (clusters.py lines 81-137). The hdbscan engine is an
external collaborator; its per-sample output `clusts.labels_` enters as the
argument `raw` (`-1` marks noise). Everything after the `fit` call is
embedded from the source: the distinct non-noise labels are collected, per
cluster the member rows are summed and counted and the positions matching
the label are written into a zero-initialized int32 label vector; if there
is exactly one distinct label and it covers every sample, a zero-row
float32 center matrix and all-zero labels are returned; otherwise the
centers are the per-cluster means cast to the samples' dtype. Either branch
ends in the validating `Clusters` constructor, which can itself fail. -/
def find_clusters (samples : NPMat) (raw : List Int) : Except String Clusters :=
  let args := find_clusters_args samples.nrows
  let params : CalculateParams := ⟨args, "hdbscan.HDBSCAN"⟩
  let uniq := unique_nonnoise raw
  let num_per := uniq.map (fun lbl => (masked_rows raw samples.data lbl).length)
  if uniq.length = 1 ∧ num_per.headD 0 = samples.nrows then
    Clusters.mk_checked samples
      ⟨DType.float32, 0, samples.ncols, []⟩
      ⟨DType.int32, List.replicate samples.nrows 0⟩ params
  else
    Clusters.mk_checked samples
      ⟨samples.dtype, uniq.length, samples.ncols,
        centers_data raw samples.data samples.ncols uniq⟩
      ⟨DType.int32, new_labels_fold raw samples.nrows uniq⟩ params

/-- `np.argsort(np.abs(eig))[::-1]` (pcs.py line 33): the indices of the
eigenvalues ordered by descending absolute value. `np.argsort` is a
deterministic function of its input; the embedding uses insertion sort,
likewise deterministic. -/
def argsort_abs_desc (eig : List ℚ) : List Nat :=
  (List.insertionSort (fun i j => |eig.getD i 0| ≤ |eig.getD j 0|)
    (List.range eig.length)).reverse

/-- `get_pcs` (pcs.py lines 11-40) downstream of the scipy
eigendecomposition of the covariance matrix, an external numeric
collaborator: `eig` holds the (real parts of the) eigenvalues and `vecs`
the matching eigenvector columns as returned by `scipy.linalg.eig`; both
have one entry per feature. The function reorders both by descending
absolute eigenvalue and keeps the first `num_pcs` entries
(`eig_vecs[:, :num_pcs]`, a numpy slice that silently caps at the number of
available columns). The source contains no comparison of `num_pcs` with the
feature count and no error path for it — `tus` only checks that `mat` is a
2-d float array and `num_pcs` an int. -/
def get_pcs (eig : List ℚ) (vecs : List (List ℚ)) (num_pcs : Nat) :
    List ℚ × List (List ℚ) :=
  let ind := argsort_abs_desc eig
  let eig_sorted := ind.filterMap (fun i => eig[i]?)
  let vecs_sorted := ind.filterMap (fun i => vecs[i]?)
  (eig_sorted.take num_pcs, vecs_sorted.take num_pcs)

/-- `arr[mask]` for a 1-d boolean mask over the first axis; the elements of
`arr` stand for rows of arbitrary trailing shape. -/
def bool_index {α : Type} (arr : List α) (mask : List Bool) : List α :=
  (arr.zip mask).filterMap (fun p => if p.2 then some p.1 else none)

/-- The masked assignment `arr[mask] = pts` into an `np.zeros` array
(renderer.py lines 28-31): positions where the mask holds take the next
element of `pts`, the other positions keep the zero fill `z`. (numpy
raises if `pts` runs short; that case cannot arise when `pts` came from
indexing with the same mask, and the model then pads with the fill.) -/
def scatter_mask {α : Type} (z : α) : List Bool → List α → List α
  | [], _ => []
  | true :: ms, p :: ps => p :: scatter_mask z ms ps
  | true :: ms, [] => z :: scatter_mask z ms []
  | false :: ms, ps => z :: scatter_mask z ms ps

/-- `submask` (renderer.py lines 11-32): given `pts = arr[mask]`,
reconstructs a zero-filled array of the original first-axis length, writes
`pts` back through `mask` and indexes with `mask2`. `z` is the zero element
`np.zeros` produces for the row dtype. The `tus` check rejects a `mask2`
whose length differs from `mask`. -/
def submask {α : Type} (z : α) (pts : List α) (mask mask2 : List Bool) :
    Except String (List α) :=
  if mask2.length ≠ mask.length then .error "mask2: samples"
  else .ok (bool_index (scatter_mask z mask pts) mask2)

open Matrix in
/-- `m = b @ a.T` computed inside `match` (matching.py line 46); the
function then takes scipy's SVD of this matrix. -/
def match_m {r c : Nat} (a b : Matrix (Fin r) (Fin c) ℚ) :
    Matrix (Fin r) (Fin r) ℚ :=
  b * aᵀ

open Matrix in
/-- `match` (matching.py lines 31-48): the orthonormal matrix meant to
minimize the Frobenius norm of `R A - B`, computed as `u @ vh` where
`u, _, vh = scipy.linalg.svd(b @ a.T)`. The SVD is an external numeric
collaborator, so its factors enter as arguments; the source's `np.real` is
the identity in this exact-rational embedding. -/
def match_mat {r c : Nat} (a b : Matrix (Fin r) (Fin c) ℚ)
    (svd_u svd_vh : Matrix (Fin r) (Fin r) ℚ) : Matrix (Fin r) (Fin r) ℚ :=
  svd_u * svd_vh

/-- Value-level view of a snapshot for the matching algebra: projection
vectors (original features by projected features), projected samples
(samples by projected features), and an arbitrary label payload. -/
structure SnapshotVals (din dout n : Nat) (L : Type) where
  projection_vectors : Matrix (Fin din) (Fin dout) ℚ
  projected_samples : Matrix (Fin n) (Fin dout) ℚ
  projected_sample_labels : L

open Matrix in
/-- `match_snaps` (matching.py lines 50-69): computes the orthogonal
transform aligning the to-match snapshot's transposed projected samples to
the reference's, and returns a new snapshot built from
`tomatch.projection_vectors @ transform.T`,
`tomatch.projected_samples @ transform.T`, and the to-match labels.
`svd_u`/`svd_vh` are scipy's SVD factors for the `match` call. -/
def match_snaps {din dout n : Nat} {L : Type}
    (reference tomatch : SnapshotVals din dout n L)
    (svd_u svd_vh : Matrix (Fin dout) (Fin dout) ℚ) :
    SnapshotVals din dout n L :=
  let transform := match_mat (tomatch.projected_samples)ᵀ
    (reference.projected_samples)ᵀ svd_u svd_vh
  ⟨tomatch.projection_vectors * transformᵀ,
   tomatch.projected_samples * transformᵀ,
   tomatch.projected_sample_labels⟩

/-- Modelled from the spec: `get_square_bounds_for` lives in
pca3dvis/state.py, a module the source tree does not contain (only its
callers do). Spec section 4.6, bounding-box policy: the smallest
axis-aligned box enclosing the points, expanded on every axis to a common
side length (the largest per-axis range) centered on each axis's own
midpoint. Points are rows of width `d`; the box is the list of per-axis
[min, max] pairs. -/
def get_square_bounds_for (pts : List (List ℚ)) (d : Nat) : List (List ℚ) :=
  let axisvals : Nat → List ℚ := fun j => pts.filterMap (fun row => row[j]?)
  let amin : Nat → ℚ := fun j => (axisvals j).foldl min ((axisvals j).headD 0)
  let amax : Nat → ℚ := fun j => (axisvals j).foldl max ((axisvals j).headD 0)
  let side : ℚ := ((List.range d).map (fun j => amax j - amin j)).foldl max 0
  (List.range d).map (fun j =>
    [(amin j + amax j) / 2 - side / 2, (amin j + amax j) / 2 + side / 2])

/-- The scene primitives of scenes.py that the worker composes, carrying
their constructor arguments. Zoom boxes are per-axis [min, max] lists. -/
inductive SceneP
  | fixed_title (title : String)
  | fixed_zoom (zoom : List (List ℚ))
  | fixed_rotation (rot : ℚ × ℚ)
  | snapshot_scene (snapshot_ind : Nat)
  | masked_scene (snapshot_ind : Nat) (mask : List Bool)
  | fade_scene (snapshot_ind : Nat) (mask : List Bool) (alpha_start alpha_end : ℚ)
  | rotation_scene (rotation_start rotation_end : ℚ × ℚ)
  | zoom_scene (zoom_start zoom_end : List (List ℚ))
  | interp_scene (start_snapshot end_snapshot : Nat)
  deriving DecidableEq

/-- Modelled from the spec: a segment of pympanim's FluentScene builder, an
external collaborator the spec describes in section 4.6 ("Timeline node"):
the concurrently active (scene, is_durative) entries, the sequential child
segments, the attached easings, and the duration in seconds (0 until
`time_rescale_exact` fixes it). -/
structure Segment where
  entries : List (SceneP × Bool)
  children : List Segment
  easings : List String
  duration : ℚ

/-- Modelled from the spec: the FluentScene builder state (spec section
4.6): the segment currently being authored plus the stack of its still-open
ancestors, nearest first. -/
structure SceneBuilder where
  top : Segment
  above : List Segment

/-- Modelled from the spec: `push(scene)` opens a child segment containing
the scene as its sole active entry and makes it the new top of stack. -/
def SceneBuilder.push (b : SceneBuilder) (s : SceneP) : SceneBuilder :=
  ⟨⟨[(s, true)], [], [], 0⟩, b.top :: b.above⟩

/-- Modelled from the spec: `join(scene, is_durative)` adds a concurrently
active entry to the current top-of-stack segment. -/
def SceneBuilder.join (b : SceneBuilder) (s : SceneP) (durative : Bool) :
    SceneBuilder :=
  ⟨{ b.top with entries := b.top.entries ++ [(s, durative)] }, b.above⟩

/-- Modelled from the spec: `dilate(easing)` attaches a time warp to the
current segment. -/
def SceneBuilder.dilate (b : SceneBuilder) (easing : String) : SceneBuilder :=
  ⟨{ b.top with easings := b.top.easings ++ [easing] }, b.above⟩

/-- Modelled from the spec: `time_rescale_exact(duration, 's')` fixes the
current segment's absolute duration, in seconds. -/
def SceneBuilder.time_rescale_exact (b : SceneBuilder) (duration : ℚ) :
    SceneBuilder :=
  ⟨{ b.top with duration := duration }, b.above⟩

/-- Modelled from the spec: `pop()` in its default sequential mode closes
the current segment and appends it after its parent's existing children.
Popping with an empty ancestor stack cannot occur in the balanced call
chains embedded here; the model then leaves the builder unchanged. -/
def SceneBuilder.pop (b : SceneBuilder) : SceneBuilder :=
  match b.above with
  | [] => b
  | p :: ps => ⟨{ p with children := p.children ++ [b.top] }, ps⟩

/-- One iteration of the per-cluster loop of `_cluster_scene` (worker.py
lines 172-213): five pushed-and-popped segments — fade out the non-members
(2 s), zoom from the whole-snapshot box to the cluster box while masking to
the members (2 s), one full rotation holding the cluster view (10 s), zoom
back out (2 s), and fade the non-members back in (2 s). -/
def cluster_flythrough (snap_ind : Nat) (title : String) (samps : NPMat)
    (labels : List Int) (clust : Nat) (b : SceneBuilder) : SceneBuilder :=
  let ctitle := title ++ " - Cluster " ++ toString (clust + 1)
  let mask := labels.map (fun l => l == (clust : Int))
  let nmask := mask.map (fun m => !m)
  let masked := bool_index samps.data mask
  let outer_zoom := get_square_bounds_for samps.data samps.ncols
  let inner_zoom := get_square_bounds_for masked samps.ncols
  b.push (SceneP.fade_scene snap_ind nmask 1 0)
    |>.join (SceneP.fixed_title ctitle) false
    |>.join (SceneP.fixed_rotation (30, 45)) false
    |>.join (SceneP.fixed_zoom outer_zoom) false
    |>.dilate "easeOutSine"
    |>.time_rescale_exact 2
    |>.pop
    |>.push (SceneP.zoom_scene outer_zoom inner_zoom)
    |>.join (SceneP.masked_scene snap_ind mask) false
    |>.join (SceneP.fixed_title ctitle) false
    |>.join (SceneP.fixed_rotation (30, 45)) false
    |>.dilate "smoothstep"
    |>.time_rescale_exact 2
    |>.pop
    |>.push (SceneP.rotation_scene (30, 45) (30, 45 + 360))
    |>.join (SceneP.masked_scene snap_ind mask) false
    |>.join (SceneP.fixed_title ctitle) false
    |>.join (SceneP.fixed_zoom inner_zoom) false
    |>.dilate "easeInOutSine"
    |>.time_rescale_exact 10
    |>.pop
    |>.push (SceneP.zoom_scene inner_zoom outer_zoom)
    |>.join (SceneP.masked_scene snap_ind mask) false
    |>.join (SceneP.fixed_title ctitle) false
    |>.join (SceneP.fixed_rotation (30, 45)) false
    |>.dilate "smoothstep"
    |>.time_rescale_exact 2
    |>.pop
    |>.push (SceneP.fade_scene snap_ind nmask 0 1)
    |>.join (SceneP.fixed_title ctitle) false
    |>.join (SceneP.fixed_rotation (30, 45)) false
    |>.join (SceneP.fixed_zoom outer_zoom) false
    |>.dilate "easeInSine"
    |>.time_rescale_exact 2
    |>.pop

/-- `_cluster_scene` (worker.py lines 167-213): runs the cluster detector
on the snapshot's projected samples (`find_clusters`; the detection result
enters as the argument `clusts`, exactly as the caller would receive it)
and appends one flythrough sub-sequence per detected cluster to the
builder, iterating `for clust in range(clusts.num_clusters)`. -/
def cluster_scene (b : SceneBuilder) (snap_ind : Nat) (title : String)
    (samps : NPMat) (clusts : Clusters) : SceneBuilder :=
  (List.range clusts.num_clusters).foldl
    (fun acc clust =>
      cluster_flythrough snap_ind title samps clusts.labels.data clust acc) b

/-- The five segments one iteration of the `_cluster_scene` loop appends to
the enclosing builder segment, spelled out: fade out the non-members (2 s,
eased by easeOutSine), zoom from the whole-snapshot box to the cluster box
masked to members (2 s, smoothstep), one full rotation holding the cluster
view (10 s, easeInOutSine), zoom back out (2 s, smoothstep), fade the
non-members back in (2 s, easeInSine); the fixed title, rotation and zoom
of the moment ride along as non-durative entries. -/
def flythrough_segments (snap_ind : Nat) (title : String) (samps : NPMat)
    (labels : List Int) (clust : Nat) : List Segment :=
  let ctitle := title ++ " - Cluster " ++ toString (clust + 1)
  let mask := labels.map (fun l => l == (clust : Int))
  let nmask := mask.map (fun m => !m)
  let masked := bool_index samps.data mask
  let outer_zoom := get_square_bounds_for samps.data samps.ncols
  let inner_zoom := get_square_bounds_for masked samps.ncols
  [⟨[(SceneP.fade_scene snap_ind nmask 1 0, true),
     (SceneP.fixed_title ctitle, false),
     (SceneP.fixed_rotation (30, 45), false),
     (SceneP.fixed_zoom outer_zoom, false)], [], ["easeOutSine"], 2⟩,
   ⟨[(SceneP.zoom_scene outer_zoom inner_zoom, true),
     (SceneP.masked_scene snap_ind mask, false),
     (SceneP.fixed_title ctitle, false),
     (SceneP.fixed_rotation (30, 45), false)], [], ["smoothstep"], 2⟩,
   ⟨[(SceneP.rotation_scene (30, 45) (30, 45 + 360), true),
     (SceneP.masked_scene snap_ind mask, false),
     (SceneP.fixed_title ctitle, false),
     (SceneP.fixed_zoom inner_zoom, false)], [], ["easeInOutSine"], 10⟩,
   ⟨[(SceneP.zoom_scene inner_zoom outer_zoom, true),
     (SceneP.masked_scene snap_ind mask, false),
     (SceneP.fixed_title ctitle, false),
     (SceneP.fixed_rotation (30, 45), false)], [], ["smoothstep"], 2⟩,
   ⟨[(SceneP.fade_scene snap_ind nmask 0 1, true),
     (SceneP.fixed_title ctitle, false),
     (SceneP.fixed_rotation (30, 45), false),
     (SceneP.fixed_zoom outer_zoom, false)], [], ["easeInSine"], 2⟩]

/-- Test fixture: a float32 2-by-1 sample matrix of zeros. -/
def samples32 : NPMat := ⟨DType.float32, 2, 1, [[0], [0]]⟩

/-- Test fixture: a float64 2-by-1 sample matrix of zeros. -/
def samples64 : NPMat := ⟨DType.float64, 2, 1, [[0], [0]]⟩

/-- Test fixture: the Clusters value `find_clusters` produces for
`samples32` when the engine labels both samples as noise `[-1, -1]`: zero
centers (an empty center matrix that keeps its column count) and all-zero
labels. -/
def clusters32 : Clusters :=
  ⟨samples32, ⟨DType.float32, 0, 1, []⟩, ⟨DType.int32, [0, 0]⟩,
   ⟨⟨0, 10⟩, "hdbscan.HDBSCAN"⟩⟩

/-- Test fixture: a float64 snapshot with 100 samples projected to 3
dimensions. -/
def snap_100 : ProjectedSnapshot :=
  ⟨⟨DType.float64, 3, 3, List.replicate 3 (List.replicate 3 0)⟩,
   ⟨DType.float64, 100, 3, List.replicate 100 (List.replicate 3 0)⟩,
   ⟨DType.int64, [100], List.replicate 100 0⟩⟩

/-- Test fixture: like `snap_100` but with 99 samples. -/
def snap_99 : ProjectedSnapshot :=
  ⟨⟨DType.float64, 3, 3, List.replicate 3 (List.replicate 3 0)⟩,
   ⟨DType.float64, 99, 3, List.replicate 99 (List.replicate 3 0)⟩,
   ⟨DType.int64, [100], List.replicate 99 0⟩⟩

/-- Test fixture: a 1-sample, 1-feature float64 snapshot for the save/load
round trip. -/
def snap_rt : ProjectedSnapshot :=
  ⟨⟨DType.float64, 1, 1, [[1]]⟩, ⟨DType.float64, 1, 1, [[2]]⟩,
   ⟨DType.int64, [1], [0]⟩⟩

/-- Test fixture: a reference snapshot-values record for `match_snaps`. -/
def svals_ref : SnapshotVals 1 1 1 (List Int) := ⟨!![2], !![3], [7]⟩

/-- Test fixture: a to-match snapshot-values record for `match_snaps`. -/
def svals_tm : SnapshotVals 1 1 1 (List Int) := ⟨!![4], !![5], [9]⟩

/-- Decidable equality for `Except` values, so closed facts about the
`Except`-valued embeddings can be settled by `decide`. -/
instance exceptDecEq {e a : Type} [DecidableEq e] [DecidableEq a] :
    DecidableEq (Except e a) := fun x y =>
  match x, y with
  | .error u, .error v =>
    if h : u = v then .isTrue (h ▸ rfl)
    else .isFalse (fun hc => h (Except.error.inj hc))
  | .error _, .ok _ => .isFalse (fun hc => Except.noConfusion hc)
  | .ok _, .error _ => .isFalse (fun hc => Except.noConfusion hc)
  | .ok u, .ok v =>
    if h : u = v then .isTrue (h ▸ rfl)
    else .isFalse (fun hc => h (Except.ok.inj hc))

/-!
Helper lemmas shared by the claim theorems.
-/

lemma filterMap_getElem_length {α : Type} (vs : List α) :
    ∀ l : List Nat, (∀ i ∈ l, i < vs.length) →
      (l.filterMap (fun i => vs[i]?)).length = l.length := by
  intro l
  induction l with
  | nil => intro _; rfl
  | cons i t ih =>
    intro h
    have hi : i < vs.length := h i (List.mem_cons_self i t)
    have hsome : vs[i]? = some vs[i] := List.getElem?_eq_getElem hi
    simp [List.filterMap_cons, hsome,
      ih (fun j hj => h j (List.mem_cons_of_mem _ hj))]

lemma first_mismatch_spec (s0 : ProjectedSnapshot) :
    ∀ (l : List ProjectedSnapshot) (k i : Nat) (f : String),
      (∀ j, j < i → check_snap s0 (l.getD j s0) = none) →
      i < l.length →
      check_snap s0 (l.getD i s0) = some f →
      first_mismatch s0 k l = some (k + i, f) := by
  intro l
  induction l with
  | nil => intro k i f _ hi _; exact absurd hi (by simp)
  | cons s rest ih =>
    intro k i f hfirst hi hf
    cases i with
    | zero =>
      simp only [List.getD_cons_zero] at hf
      simp [first_mismatch, hf]
    | succ i' =>
      have h0 : check_snap s0 s = none := by
        have := hfirst 0 (Nat.succ_pos i')
        simpa using this
      have hfirst' : ∀ j, j < i' → check_snap s0 (rest.getD j s0) = none := by
        intro j hj
        have := hfirst (j + 1) (Nat.succ_lt_succ hj)
        simpa using this
      have hi' : i' < rest.length := by simpa using Nat.lt_of_succ_lt_succ hi
      have hf' : check_snap s0 (rest.getD i' s0) = some f := by simpa using hf
      have hrec := ih (k + 1) i' f hfirst' hi' hf'
      have harith : k + 1 + i' = k + (i' + 1) := by omega
      rw [harith] at hrec
      simp only [first_mismatch, h0]
      exact hrec

/-!
Claim C5.
-/

/-- Claim C5: for component counts k' < k, the first k' columns of the
projection matrix returned by `get_pcs(mat, k)` equal the projection matrix
returned by `get_pcs(mat, k')`: both calls sort the same eigenpairs of the
same covariance matrix by descending absolute eigenvalue and only then
truncate. -/
theorem get_pcs_prefix_stability (eig : List ℚ) (vecs : List (List ℚ))
    (k' k : Nat) (h : k' < k) :
    ((get_pcs eig vecs k).2).take k' = (get_pcs eig vecs k').2 := by
  simp [get_pcs, List.take_take, Nat.min_eq_left (Nat.le_of_lt h)]

/-- Witness for `get_pcs_prefix_stability` at a concrete eigendecomposition
and the component counts 1 < 2. -/
theorem get_pcs_prefix_stability_witness :
    1 < 2 ∧
      ((get_pcs [1, 2] [[1, 0], [0, 1]] 2).2).take 1
        = (get_pcs [1, 2] [[1, 0], [0, 1]] 1).2 :=
  ⟨by decide, get_pcs_prefix_stability [1, 2] [[1, 0], [0, 1]] 1 2 (by decide)⟩

/-!
Claim C2.
-/

/-- Claim C2 counterexample: a matrix with a single feature (hence a single
eigenpair) and a requested component count of 2 makes `get_pcs` return
normally — the source has no k-versus-features check and no DimensionError
path — with only one column instead of the requested two. -/
theorem get_pcs_no_dimension_check_cex :
    get_pcs [3] [[1]] 2 = ([3], [[1]]) ∧
      ((get_pcs [3] [[1]] 2).2).length ≠ 2 := by
  constructor
  · decide
  · decide

/-- Claim C2 amended: `get_pcs` does not fail when the requested component
count exceeds the feature count; for every request k it returns
min(k, features) columns — all of them when k exceeds the feature count,
the top k otherwise. -/
theorem get_pcs_caps_columns (eig : List ℚ) (vecs : List (List ℚ)) (k : Nat)
    (h : vecs.length = eig.length) :
    ((get_pcs eig vecs k).2).length = min k vecs.length := by
  have hlen : (argsort_abs_desc eig).length = eig.length := by
    simp [argsort_abs_desc, List.length_insertionSort]
  have hmem : ∀ i ∈ argsort_abs_desc eig, i < vecs.length := by
    intro i hi
    rw [h]
    have hr : i ∈ List.range eig.length := by
      simpa [argsort_abs_desc, List.mem_reverse, List.mem_insertionSort]
        using hi
    simpa using List.mem_range.mp hr
  simp [get_pcs, List.length_take,
    filterMap_getElem_length vecs _ hmem, hlen, h]

/-- Witness for `get_pcs_caps_columns` at a single-feature input with an
oversized request. -/
theorem get_pcs_caps_columns_witness :
    ([[1]] : List (List ℚ)).length = ([3] : List ℚ).length ∧
      ((get_pcs [3] [[1]] 2).2).length = min 2 ([[1]] : List (List ℚ)).length :=
  ⟨rfl, get_pcs_caps_columns [3] [[1]] 2 rfl⟩

/-!
Claim C3.
-/

/-- Claim C3: constructing a trajectory from a non-empty snapshot list whose
snapshot at index i is the first to differ from snapshot 0 — f being the
first differing field among sample count, projection size, dtype, label
shape and label dtype — fails with the validation error naming exactly that
snapshot index and field, and no trajectory is constructed. -/
theorem trajectory_rejects_mismatch (s0 : ProjectedSnapshot)
    (rest : List ProjectedSnapshot) (i : Nat) (f : String)
    (hfirst : ∀ j, j < i → check_snap s0 ((s0 :: rest).getD j s0) = none)
    (hi : i < (s0 :: rest).length)
    (hf : check_snap s0 ((s0 :: rest).getD i s0) = some f) :
    ProjectedTrajectory.mk_checked (s0 :: rest) = .error (.mismatch i f) := by
  have hspec := first_mismatch_spec s0 (s0 :: rest) 0 i f hfirst hi hf
  simp only [Nat.zero_add] at hspec
  simp [ProjectedTrajectory.mk_checked, hspec]

/-- Witness for `trajectory_rejects_mismatch`: two otherwise-identical
snapshots with 100 and 99 samples are rejected naming snapshot index 1 and
the sample-count field. -/
theorem trajectory_rejects_mismatch_witness :
    (∀ j, j < 1 → check_snap snap_100 ([snap_100, snap_99].getD j snap_100) = none) ∧
    1 < [snap_100, snap_99].length ∧
    check_snap snap_100 ([snap_100, snap_99].getD 1 snap_100) = some "num_samples" ∧
    ProjectedTrajectory.mk_checked [snap_100, snap_99]
      = .error (.mismatch 1 "num_samples") := by
  refine ⟨?_, by decide, by decide, ?_⟩
  · intro j hj
    have hj0 : j = 0 := by omega
    subst hj0
    decide
  · exact trajectory_rejects_mismatch snap_100 [snap_99] 1 "num_samples"
      (by
        intro j hj
        have hj0 : j = 0 := by omega
        subst hj0
        decide)
      (by decide) (by decide)

/-!
Claim C8.
-/

/-- Claim C8: every snapshot accepted by the constructor round-trips through
save and load bit-identically: loading the archive written by save yields a
snapshot whose projection vectors, projected samples and labels (values,
shapes and dtype tags) are exactly the originals. -/
theorem snapshot_save_load_roundtrip (pv ps : NPMat) (lb : NPArr)
    (s : ProjectedSnapshot)
    (h : ProjectedSnapshot.mk_checked pv ps lb = .ok s) :
    ProjectedSnapshot.load (ProjectedSnapshot.save s) = .ok s := by
  unfold ProjectedSnapshot.mk_checked at h
  split_ifs at h with h1 h2 h3
  split at h
  · simp at h
  · next sh0 sht hsh =>
      split_ifs at h with h4
      have hse := Except.ok.inj h
      subst hse
      simp [ProjectedSnapshot.load, ProjectedSnapshot.save,
        ProjectedSnapshot.mk_checked, hsh, h1, h2, h3, h4]

/-- Witness for `snapshot_save_load_roundtrip` at a concrete snapshot. -/
theorem snapshot_save_load_roundtrip_witness :
    ProjectedSnapshot.mk_checked ⟨DType.float64, 1, 1, [[1]]⟩
        ⟨DType.float64, 1, 1, [[2]]⟩ ⟨DType.int64, [1], [0]⟩ = .ok snap_rt ∧
      ProjectedSnapshot.load (ProjectedSnapshot.save snap_rt) = .ok snap_rt :=
  ⟨by decide, snapshot_save_load_roundtrip ⟨DType.float64, 1, 1, [[1]]⟩
    ⟨DType.float64, 1, 1, [[2]]⟩ ⟨DType.int64, [1], [0]⟩ snap_rt (by decide)⟩

lemma clusters_mk_checked_ok {sm ce : NPMat} {lb : NPIntVec}
    {p : CalculateParams} {c : Clusters}
    (h : Clusters.mk_checked sm ce lb p = .ok c) : c = ⟨sm, ce, lb, p⟩ := by
  unfold Clusters.mk_checked at h
  split_ifs at h
  exact (Except.ok.inj h).symm

/-!
Claim C7.
-/

/-- Claim C7 counterexample: for 11 samples the source hands the engine
`min_cluster_size = int(0.2 * 11) = 2`, while the ceiling of 0.2 * 11 is 3:
the parameter is the floor, not the ceiling, of 0.2 * N. -/
theorem find_clusters_args_not_ceil_cex :
    (find_clusters_args 11).min_cluster_size = 2 ∧
      (⌈(0.2 : ℚ) * 11⌉₊ : ℕ) = 3 ∧
      (find_clusters_args 11).min_cluster_size ≠ ⌈(0.2 : ℚ) * 11⌉₊ := by
  have hceil : (⌈(0.2 : ℚ) * 11⌉₊ : ℕ) = 3 := by
    rw [show ((0.2 : ℚ) * 11) = 11 / 5 by norm_num]
    rw [Nat.ceil_eq_iff (by norm_num)]
    norm_num
  exact ⟨rfl, hceil, by rw [hceil]; decide⟩

/-- Claim C7 amended: for every samples matrix with N rows accepted by
`find_clusters`, the engine receives `min_cluster_size = floor(0.2 * N)`
(the truncation `int(0.2 * N)`, equal to N integer-divided by 5) — not the
ceiling — and `min_samples = 10`, and exactly these are recorded in the
returned `calculate_params`. -/
theorem find_clusters_engine_params (samples : NPMat) (raw : List Int)
    (c : Clusters) (h : find_clusters samples raw = .ok c) :
    c.calculate_params.clustering.min_cluster_size = samples.nrows / 5 ∧
      c.calculate_params.clustering.min_cluster_size
        = ⌊(0.2 : ℚ) * (samples.nrows : ℚ)⌋₊ ∧
      c.calculate_params.clustering.min_samples = 10 := by
  have hfloor : (⌊(0.2 : ℚ) * (samples.nrows : ℚ)⌋₊ : ℕ) = samples.nrows / 5 := by
    rw [show ((0.2 : ℚ) * (samples.nrows : ℚ)) = (samples.nrows : ℚ) / 5 by
      ring_nf]
    have hdiv := @Nat.floor_div_eq_div ℚ _ _ samples.nrows 5
    simpa using hdiv
  rw [find_clusters] at h
  split_ifs at h with hdeg
  · have hc := clusters_mk_checked_ok h
    subst hc
    refine ⟨rfl, ?_, rfl⟩
    rw [hfloor]
    rfl
  · have hc := clusters_mk_checked_ok h
    subst hc
    refine ⟨rfl, ?_, rfl⟩
    rw [hfloor]
    rfl

/-- Witness for `find_clusters_engine_params`: the engine labelling
`[-1, -1]` on the two-sample float32 fixture yields `clusters32`, whose
recorded parameters are min_cluster_size 0 = 2 div 5 and min_samples 10. -/
theorem find_clusters_engine_params_witness :
    find_clusters samples32 [-1, -1] = .ok clusters32 ∧
      (clusters32.calculate_params.clustering.min_cluster_size
          = samples32.nrows / 5 ∧
        clusters32.calculate_params.clustering.min_cluster_size
          = ⌊(0.2 : ℚ) * (samples32.nrows : ℚ)⌋₊ ∧
        clusters32.calculate_params.clustering.min_samples = 10) :=
  ⟨by decide, find_clusters_engine_params samples32 [-1, -1] clusters32
    (by decide)⟩

/-!
Claim C4.
-/

open Matrix in
/-- Claim C4: `match_snaps` is pure — in this value-level embedding every
input is taken and returned by value, matching a source body made only of
allocating numpy operations (`@`, constructor calls) with no in-place
writes. The returned snapshot carries the to-match snapshot's projection
vectors and projected samples with the transform applied on the right
(`@ transform.T`), and its labels are exactly the to-match label payload,
unchanged; whenever scipy's SVD factors are orthonormal, the applied
transform is orthonormal as well. -/
theorem match_snaps_pure {din dout n : Nat} {L : Type}
    (reference tomatch : SnapshotVals din dout n L)
    (svd_u svd_vh : Matrix (Fin dout) (Fin dout) ℚ)
    (hu : svd_uᵀ * svd_u = 1) (hv : svd_vhᵀ * svd_vh = 1) :
    (match_snaps reference tomatch svd_u svd_vh).projected_sample_labels
        = tomatch.projected_sample_labels ∧
      (match_snaps reference tomatch svd_u svd_vh).projection_vectors
        = tomatch.projection_vectors *
            (match_mat (tomatch.projected_samples)ᵀ
              (reference.projected_samples)ᵀ svd_u svd_vh)ᵀ ∧
      (match_snaps reference tomatch svd_u svd_vh).projected_samples
        = tomatch.projected_samples *
            (match_mat (tomatch.projected_samples)ᵀ
              (reference.projected_samples)ᵀ svd_u svd_vh)ᵀ ∧
      (match_mat (tomatch.projected_samples)ᵀ
            (reference.projected_samples)ᵀ svd_u svd_vh)ᵀ *
          match_mat (tomatch.projected_samples)ᵀ
            (reference.projected_samples)ᵀ svd_u svd_vh = 1 := by
  refine ⟨rfl, rfl, rfl, ?_⟩
  unfold match_mat
  rw [Matrix.transpose_mul, Matrix.mul_assoc, ← Matrix.mul_assoc svd_uᵀ,
    hu, Matrix.one_mul, hv]

open Matrix in
/-- Witness for `match_snaps_pure` with identity SVD factors on concrete
one-dimensional snapshots. -/
theorem match_snaps_pure_witness :
    ((1 : Matrix (Fin 1) (Fin 1) ℚ)ᵀ * 1 = 1) ∧
      ((match_snaps svals_ref svals_tm 1 1).projected_sample_labels
          = svals_tm.projected_sample_labels ∧
        (match_snaps svals_ref svals_tm 1 1).projection_vectors
          = svals_tm.projection_vectors *
              (match_mat (svals_tm.projected_samples)ᵀ
                (svals_ref.projected_samples)ᵀ 1 1)ᵀ ∧
        (match_snaps svals_ref svals_tm 1 1).projected_samples
          = svals_tm.projected_samples *
              (match_mat (svals_tm.projected_samples)ᵀ
                (svals_ref.projected_samples)ᵀ 1 1)ᵀ ∧
        (match_mat (svals_tm.projected_samples)ᵀ
              (svals_ref.projected_samples)ᵀ 1 1)ᵀ *
            match_mat (svals_tm.projected_samples)ᵀ
              (svals_ref.projected_samples)ᵀ 1 1 = 1) :=
  ⟨by simp, match_snaps_pure svals_ref svals_tm 1 1 (by simp) (by simp)⟩

/-!
Claim C10.
-/

lemma bool_index_cons_false {α : Type} (x : α) (xs : List α) (t : List Bool) :
    bool_index (x :: xs) (false :: t) = bool_index xs t := by
  simp [bool_index]

lemma bool_index_cons_true {α : Type} (x : α) (xs : List α) (t : List Bool) :
    bool_index (x :: xs) (true :: t) = x :: bool_index xs t := by
  simp [bool_index]

lemma scatter_bool_index {α : Type} (z : α) :
    ∀ (mask : List Bool) (arr : List α), arr.length = mask.length →
      scatter_mask z mask (bool_index arr mask)
        = List.zipWith (fun m a => if m then a else z) mask arr := by
  intro mask
  induction mask with
  | nil =>
    intro arr h
    rcases arr with _ | ⟨a, as⟩
    · rfl
    · simp at h
  | cons m ms ih =>
    intro arr h
    rcases arr with _ | ⟨a, as⟩
    · simp at h
    · have h' : as.length = ms.length := by simpa using h
      cases m
      · rw [bool_index_cons_false]
        simp only [scatter_mask]
        rw [ih as h']
        simp
      · rw [bool_index_cons_true]
        simp only [scatter_mask]
        rw [ih as h']
        simp

lemma bool_index_zipWith_sub {α : Type} (z : α) :
    ∀ (mask2 mask : List Bool) (arr : List α),
      List.Forall₂ (fun b2 b => b2 = true → b = true) mask2 mask →
      arr.length = mask.length →
      bool_index (List.zipWith (fun m a => if m then a else z) mask arr) mask2
        = bool_index arr mask2 := by
  intro mask2
  induction mask2 with
  | nil =>
    intro mask arr hf _
    cases hf
    simp [bool_index]
  | cons b2 t2 ih =>
    intro mask arr hf h
    cases mask with
    | nil => cases hf
    | cons b t =>
      cases hf with
      | cons hb htail =>
        rcases arr with _ | ⟨a, as⟩
        · simp at h
        · have h' : as.length = t.length := by simpa using h
          cases b2
          · rw [List.zipWith_cons_cons, bool_index_cons_false,
              bool_index_cons_false, ih t as htail h']
          · have hbtrue := hb rfl
            subst hbtrue
            rw [List.zipWith_cons_cons, bool_index_cons_true,
              bool_index_cons_true, if_pos rfl, ih t as htail h']

/-- Claim C10: whenever `pts` really is `arr[mask]` (first-axis boolean
indexing) and `mask2` is a pointwise subset of `mask` of the same length,
`submask(arr[mask], mask, mask2)` returns `arr[mask2]` — writing the points
back into a zero-filled array through `mask` and re-indexing with `mask2`
recovers exactly the `mask2` selection of the original array. -/
theorem submask_recovers {α : Type} (z : α) (arr : List α)
    (mask mask2 : List Bool)
    (hlen : arr.length = mask.length)
    (hsub : List.Forall₂ (fun b2 b => b2 = true → b = true) mask2 mask) :
    submask z (bool_index arr mask) mask mask2
      = .ok (bool_index arr mask2) := by
  have hlen2 : mask2.length = mask.length := hsub.length_eq
  unfold submask
  rw [if_neg (by simp [hlen2])]
  rw [scatter_bool_index z mask arr hlen,
    bool_index_zipWith_sub z mask2 mask arr hsub hlen]

/-- Witness for `submask_recovers` on a concrete array and mask pair. -/
theorem submask_recovers_witness :
    ([10, 20, 30] : List Int).length = [true, true, false].length ∧
      List.Forall₂ (fun b2 b => b2 = true → b = true)
        [false, true, false] [true, true, false] ∧
      submask 0 (bool_index [10, 20, 30] [true, true, false])
          [true, true, false] [false, true, false]
        = .ok (bool_index [10, 20, 30] [false, true, false]) :=
  ⟨rfl, by refine .cons ?_ (.cons ?_ (.cons ?_ .nil)) <;> simp,
    submask_recovers 0 [10, 20, 30] [true, true, false] [false, true, false]
      rfl (by refine .cons ?_ (.cons ?_ (.cons ?_ .nil)) <;> simp)⟩

/-!
Claim C9.
-/

lemma cluster_flythrough_eq (snap_ind : Nat) (title : String) (samps : NPMat)
    (labels : List Int) (clust : Nat) (b : SceneBuilder) :
    cluster_flythrough snap_ind title samps labels clust b
      = ⟨{ b.top with children := b.top.children
            ++ flythrough_segments snap_ind title samps labels clust },
         b.above⟩ := by
  simp [cluster_flythrough, flythrough_segments, SceneBuilder.push,
    SceneBuilder.join, SceneBuilder.dilate, SceneBuilder.time_rescale_exact,
    SceneBuilder.pop]

lemma cluster_scene_fold (snap_ind : Nat) (title : String) (samps : NPMat)
    (labels : List Int) :
    ∀ (K : Nat) (b : SceneBuilder),
      (List.range K).foldl
        (fun acc clust => cluster_flythrough snap_ind title samps labels clust acc) b
      = ⟨{ b.top with children := (b.top.children
            ++ (List.range K).flatMap
                (flythrough_segments snap_ind title samps labels)) },
         b.above⟩ := by
  intro K
  induction K with
  | zero =>
    intro b
    rcases b with ⟨⟨e, c, ea, d⟩, ab⟩
    simp
  | succ K ih =>
    intro b
    rw [List.range_succ, List.foldl_append, ih]
    simp [cluster_flythrough_eq, List.flatMap_append]

/-- Claim C9: `_cluster_scene` appends to the current builder segment
exactly one flythrough sub-sequence per detected cluster — five segments
whose durations are exactly 2, 2, 10, 2, 2 seconds, 18 seconds in total —
iterating over the detected cluster count (the number of center rows), so
zero detected centers append nothing; the rest of the builder (open
ancestors, the current segment's own entries, easings and duration) is
untouched. -/
theorem cluster_scene_flythroughs (b : SceneBuilder) (snap_ind : Nat)
    (title : String) (samps : NPMat) (clusts : Clusters) :
    (cluster_scene b snap_ind title samps clusts).top.children
      = b.top.children
        ++ (List.range clusts.num_clusters).flatMap
            (flythrough_segments snap_ind title samps clusts.labels.data) ∧
      (∀ clust : Nat,
        (flythrough_segments snap_ind title samps clusts.labels.data
            clust).map Segment.duration = [2, 2, 10, 2, 2]) ∧
      (∀ clust : Nat,
        ((flythrough_segments snap_ind title samps clusts.labels.data
            clust).map Segment.duration).sum = 18) ∧
      (clusts.num_clusters = 0 →
        cluster_scene b snap_ind title samps clusts = b) ∧
      (cluster_scene b snap_ind title samps clusts).above = b.above ∧
      (cluster_scene b snap_ind title samps clusts).top.entries
        = b.top.entries ∧
      (cluster_scene b snap_ind title samps clusts).top.easings
        = b.top.easings ∧
      (cluster_scene b snap_ind title samps clusts).top.duration
        = b.top.duration := by
  refine ⟨?_, fun _ => rfl, ?_, ?_, ?_, ?_, ?_, ?_⟩
  case refine_2 =>
    intro clust
    have h2 : (flythrough_segments snap_ind title samps clusts.labels.data
        clust).map Segment.duration = [2, 2, 10, 2, 2] := rfl
    rw [h2]
    norm_num [List.sum_cons, List.sum_nil]
  · rw [cluster_scene, cluster_scene_fold]
  · intro h0
    rw [cluster_scene, h0]
    simp
  · rw [cluster_scene, cluster_scene_fold]
  · rw [cluster_scene, cluster_scene_fold]
  · rw [cluster_scene, cluster_scene_fold]
  · rw [cluster_scene, cluster_scene_fold]

/-!
Claims C1 and C6.
-/

lemma mem_unique_nonnoise {raw : List Int} {x : Int} :
    x ∈ unique_nonnoise raw ↔ x ∈ raw ∧ x ≠ -1 := by
  simp [unique_nonnoise, List.mem_insertionSort, List.mem_dedup,
    List.mem_filter]

lemma nodup_unique_nonnoise (raw : List Int) : (unique_nonnoise raw).Nodup := by
  unfold unique_nonnoise
  exact ((List.perm_insertionSort _ _).nodup_iff).mpr (List.nodup_dedup _)


lemma length_unique_nonnoise {raw : List Int} {m : Nat}
    (hlab : ∀ l ∈ raw, l = -1 ∨ (0 ≤ l ∧ l < (m : Int)))
    (hcontig : ∀ j : Nat, j < m → ((j : Int) ∈ raw)) :
    (unique_nonnoise raw).length = m := by
  have hnd : (unique_nonnoise raw).Nodup := nodup_unique_nonnoise raw
  have hinj : Function.Injective (fun j : ℕ => (j : Int)) :=
    Nat.cast_injective
  have htarget : ((List.range m).map (fun j : ℕ => (j : Int))).Nodup := by
    rw [List.nodup_map_iff hinj]
    exact List.nodup_range m
  have hiff : ∀ x, x ∈ unique_nonnoise raw
      ↔ x ∈ (List.range m).map (fun j : ℕ => (j : Int)) := by
    intro x
    rw [mem_unique_nonnoise]
    simp only [List.mem_map, List.mem_range]
    constructor
    · rintro ⟨hxr, hx1⟩
      rcases hlab x hxr with h | ⟨h0, hm⟩
      · exact absurd h hx1
      · refine ⟨x.toNat, ?_, ?_⟩
        · omega
        · omega
    · rintro ⟨j, hj, rfl⟩
      refine ⟨hcontig j hj, ?_⟩
      omega
  have hperm : List.Perm (unique_nonnoise raw)
      ((List.range m).map (fun j : ℕ => (j : Int))) :=
    (List.perm_ext_iff_of_nodup hnd htarget).mpr hiff
  simpa using hperm.length_eq

lemma zipWith_snd {α β : Type} :
    ∀ (l1 : List α) (l2 : List β), l2.length = l1.length →
      List.zipWith (fun _ a => a) l1 l2 = l2 := by
  intro l1
  induction l1 with
  | nil =>
    intro l2 h
    rcases l2 with _ | ⟨b, bs⟩
    · rfl
    · simp at h
  | cons a as ih =>
    intro l2 h
    rcases l2 with _ | ⟨b, bs⟩
    · simp at h
    · have h' : bs.length = as.length := by simpa using h
      simp [ih bs h']

lemma zipWith_zipWith_same {α β γ δ : Type} (f : α → γ → δ) (g : α → β → γ) :
    ∀ (l1 : List α) (l2 : List β),
      List.zipWith f l1 (List.zipWith g l1 l2)
        = List.zipWith (fun x y => f x (g x y)) l1 l2 := by
  intro l1
  induction l1 with
  | nil => intro l2; rfl
  | cons a as ih =>
    intro l2
    rcases l2 with _ | ⟨b, bs⟩
    · rfl
    · simp [ih bs]

lemma fold_assign_eq :
    ∀ (L : List Int) (raw init : List Int), init.length = raw.length →
      L.foldl (fun acc lbl =>
          List.zipWith (fun r a => if r = lbl then lbl else a) raw acc) init
        = List.zipWith (fun r a => if r ∈ L then r else a) raw init := by
  intro L
  induction L with
  | nil =>
    intro raw init h
    simp only [List.foldl_nil]
    rw [show (fun (r a : Int) => if r ∈ ([] : List Int) then r else a)
        = fun _ a => a from by funext r a; simp]
    exact (zipWith_snd raw init h).symm
  | cons lbl L' ih =>
    intro raw init h
    simp only [List.foldl_cons]
    rw [ih raw _ (by simp [List.length_zipWith, h])]
    rw [zipWith_zipWith_same]
    congr 1
    funext r a
    by_cases h1 : r ∈ L'
    · simp [h1, List.mem_cons]
    · by_cases h2 : r = lbl
      · simp [h1, h2, List.mem_cons]
      · simp [h1, h2, List.mem_cons]

lemma zipWith_replicate_map {α β γ : Type} (f : α → β → γ) (c : β) :
    ∀ (l : List α),
      List.zipWith f l (List.replicate l.length c) = l.map (fun x => f x c) := by
  intro l
  induction l with
  | nil => rfl
  | cons a as ih => simp [List.replicate_succ, ih]

lemma new_labels_fold_eq (raw : List Int) (n : Nat) (h : raw.length = n) :
    new_labels_fold raw n (unique_nonnoise raw)
      = raw.map (fun r => if r = -1 then 0 else r) := by
  unfold new_labels_fold
  rw [fold_assign_eq _ raw _ (by simp [h])]
  subst h
  rw [zipWith_replicate_map]
  refine List.map_congr_left ?_
  intro r hr
  by_cases hr1 : r = -1
  · subst hr1
    have hnot : (-1 : ℤ) ∉ unique_nonnoise raw := by
      rw [mem_unique_nonnoise]
      rintro ⟨_, hne⟩
      exact hne rfl
    simp [hnot]
  · have : r ∈ unique_nonnoise raw := mem_unique_nonnoise.mpr ⟨hr, hr1⟩
    simp [this, hr1]

/-- Claim C1 counterexample: when the engine labels every sample as noise
(all raw labels -1), `find_clusters` returns a Clusters value with zero
center rows (K = 0) whose labels are all 0 — the zero-filled initialization
is never overwritten — so a returned label (0) lies outside
{-1, 0, ..., K-1} = {-1}, and the unclustered points did not receive the
label -1. -/
theorem find_clusters_labels_cex :
    find_clusters samples32 [-1, -1] = .ok clusters32 ∧
      clusters32.num_clusters = 0 ∧
      clusters32.labels.data = [0, 0] ∧
      ¬((0 : Int) = -1 ∨
        (0 ≤ (0 : Int) ∧ (0 : Int) < (clusters32.num_clusters : Int))) := by
  refine ⟨by decide, rfl, rfl, by decide⟩

/-- Claim C1 amended: for every accepted samples matrix and every engine
labelling (one label per sample, each either -1 for noise or a cluster id
in a contiguous range 0..m-1), when `find_clusters` returns a Clusters
value every entry of its labels array lies in {0, ..., K-1} when K ≥ 1 and
equals 0 when K = 0 (K the number of center rows) — never -1 — and every
noise point (raw label -1) receives the label 0, because the zero-filled
int32 label vector is only overwritten at non-noise positions. -/
theorem find_clusters_labels_amended (samples : NPMat) (raw : List Int)
    (m : Nat) (c : Clusters)
    (hlen : raw.length = samples.nrows)
    (hlab : ∀ l ∈ raw, l = -1 ∨ (0 ≤ l ∧ l < (m : Int)))
    (hcontig : ∀ j : Nat, j < m → ((j : Int) ∈ raw))
    (hok : find_clusters samples raw = .ok c) :
    (∀ l ∈ c.labels.data,
        0 ≤ l ∧ l < ((max c.num_clusters 1 : Nat) : Int)) ∧
      (∀ i : Nat, raw[i]? = some (-1) → c.labels.data[i]? = some 0) := by
  rw [find_clusters] at hok
  split_ifs at hok with hdeg
  · have hc := clusters_mk_checked_ok hok
    subst hc
    constructor
    · intro l hl
      have hl0 : l = 0 := List.eq_of_mem_replicate hl
      subst hl0
      refine ⟨le_refl 0, ?_⟩
      have hmax : 1 ≤ max (0 : Nat) 1 := le_max_right 0 1
      simp [Clusters.num_clusters]
    · intro i hi
      have hilen : i < raw.length := by
        by_contra hge
        rw [List.getElem?_eq_none (by omega)] at hi
        simp at hi
      have hin : i < samples.nrows := by omega
      simp [List.getElem?_replicate, hin]
  · have hc := clusters_mk_checked_ok hok
    subst hc
    have hK : (unique_nonnoise raw).length = m :=
      length_unique_nonnoise hlab hcontig
    have hnl := new_labels_fold_eq raw samples.nrows hlen
    constructor
    · intro l hl
      simp only [Clusters.num_clusters]
      rw [hnl] at hl
      obtain ⟨r, hr, rfl⟩ := List.mem_map.mp hl
      by_cases hr1 : r = -1
      · rw [if_pos hr1]
        refine ⟨le_refl 0, ?_⟩
        have hmax := le_max_right (unique_nonnoise raw).length 1
        omega
      · rw [if_neg hr1]
        rcases hlab r hr with h | ⟨h0, hm⟩
        · exact absurd h hr1
        · refine ⟨h0, ?_⟩
          have hmax := le_max_left (unique_nonnoise raw).length 1
          omega
    · intro i hi
      rw [hnl, List.getElem?_map, hi]
      simp

/-- Witness for `find_clusters_labels_amended`: the all-noise labelling
`[-1, -1]` (m = 0) on the float32 fixture, where the returned labels are
all 0 and the center count is 0. -/
theorem find_clusters_labels_amended_witness :
    (([-1, -1] : List Int).length = samples32.nrows) ∧
      (∀ l ∈ ([-1, -1] : List Int), l = -1 ∨ (0 ≤ l ∧ l < ((0 : Nat) : Int))) ∧
      (∀ j : Nat, j < 0 → ((j : Int) ∈ ([-1, -1] : List Int))) ∧
      find_clusters samples32 [-1, -1] = .ok clusters32 ∧
      ((∀ l ∈ clusters32.labels.data,
          0 ≤ l ∧ l < ((max clusters32.num_clusters 1 : Nat) : Int)) ∧
        (∀ i : Nat, ([-1, -1] : List Int)[i]? = some (-1) →
          clusters32.labels.data[i]? = some 0)) :=
  ⟨rfl, by decide, by omega, by decide,
    find_clusters_labels_amended samples32 [-1, -1] 0 clusters32 rfl
      (by decide) (by omega) (by decide)⟩

/-- Claim C6 (code bug): in the degenerate single-group case — one distinct
engine label covering all N samples — the source hardcodes a float32 dtype
for the zero-row center matrix; the Clusters validator requires the centers
to carry the samples' dtype, so float64 samples make `find_clusters` raise
a dtype-mismatch validation error instead of returning, while the same
degenerate labelling on float32 samples returns the documented zero-row
centers and all-zero labels. -/
theorem find_clusters_degenerate_dtype_bug :
    find_clusters samples64 [0, 0] = .error "centers: dtype" ∧
      find_clusters samples32 [0, 0]
        = .ok ⟨samples32, ⟨DType.float32, 0, 1, []⟩,
            ⟨DType.int32, [0, 0]⟩, ⟨⟨0, 10⟩, "hdbscan.HDBSCAN"⟩⟩ := by
  refine ⟨by decide, by decide⟩
